import Mathlib

/-!
Verification development for the epd-spectra repository (tri-color e-paper
panel driver).  The repository's visible source is the example
`src/examples/nucleo-f401re.rs`; the driver library itself (raster store,
bus framer, busy synchronizer, driver state machine) is not under `src/`,
so those components are modelled from the specification, faithful to its
words.  The static image constant `FERRIS_IMG` and `FERRIS_WIDTH` are
transcribed verbatim from the example source.
-/

namespace EpdSpectra

/-- Modelled from the spec: the tri-color pixel type `TriColor` of the
missing driver library; each pixel is exactly one of three colors
(White, Black, Red), no fourth state is representable. -/
inductive TriColor
  | White
  | Black
  | Red
deriving DecidableEq

/-- Modelled from the spec: the missing raster store keeps a "primary"
(black-vs-white) plane; this is the bit a color contributes to it.  The
exact polarity is a panel-specific constant the spec leaves open; we fix
Black as the set bit. -/
def primaryBit : TriColor → Bool
  | .Black => true
  | _ => false

/-- Modelled from the spec: the bit a color contributes to the "accent"
(red-vs-not-red) plane of the missing raster store. -/
def accentBit : TriColor → Bool
  | .Red => true
  | _ => false

/-- Modelled from the spec: decoding one pixel from its two plane bits,
inverse of the fixed 2-bit encoding. -/
def decodeColor (p a : Bool) : TriColor :=
  if a then .Red else if p then .Black else .White

/-- Modelled from the spec: bytes per row of one plane,
ceil(width / 8) with one bit per pixel. -/
def rowBytes (w : Nat) : Nat := (w + 7) / 8

/-- Modelled from the spec: plane byte length, ceil(width/8) × height. -/
def planeLen (w h : Nat) : Nat := rowBytes w * h

/-- Modelled from the spec: the missing raster store — an immutable panel
geometry (width, height) and two bit planes stored as byte lists, row-major,
most-significant-bit-first within a byte. -/
structure RasterStore where
  width : Nat
  height : Nat
  primary : List Nat
  accent : List Nat
deriving DecidableEq

/-- Modelled from the spec: index of the byte holding pixel (x, y),
row-major layout. -/
def byteIndex (w x y : Nat) : Nat := y * rowBytes w + x / 8

/-- Modelled from the spec: bit position of pixel x inside its byte,
most-significant-bit-first. -/
def bitIndex (x : Nat) : Nat := 7 - x % 8

/-- Modelled from the spec: read one bit of a plane byte. -/
def getBit (b i : Nat) : Bool := b.testBit i

/-- Modelled from the spec: overwrite one bit of a plane byte (bytes are
8-bit, so clearing masks with the 8-bit complement of the bit). -/
def setBit (b i : Nat) (v : Bool) : Nat :=
  if v then b ||| 2 ^ i else b &&& (255 ^^^ 2 ^ i)

/-- Modelled from the spec: overwrite bit `i` of byte `idx` of a plane. -/
def planeSet (plane : List Nat) (idx i : Nat) (v : Bool) : List Nat :=
  plane.set idx (setBit (plane.getD idx 0) i v)

/-- Modelled from the spec: a byte all eight of whose pixel bits equal `v`,
used by `clear`. -/
def fillByte (v : Bool) : Nat := if v then 255 else 0

namespace RasterStore

/-- Modelled from the spec: construction of the missing raster store; both
planes are allocated at exactly ceil(width/8) × height bytes. -/
def new (w h : Nat) : RasterStore :=
  { width := w
    height := h
    primary := List.replicate (planeLen w h) 0
    accent := List.replicate (planeLen w h) 0 }

/-- Modelled from the spec: `set_pixel(x, y, color)` of the missing raster
store — if (x, y) lies within the panel geometry it overwrites the
corresponding bit in both planes per the 2-bit encoding; out-of-bounds
coordinates are a no-op, never an error. -/
def set_pixel (s : RasterStore) (x y : Nat) (c : TriColor) : RasterStore :=
  if x < s.width ∧ y < s.height then
    { s with
        primary := planeSet s.primary (byteIndex s.width x y) (bitIndex x) (primaryBit c)
        accent := planeSet s.accent (byteIndex s.width x y) (bitIndex x) (accentBit c) }
  else s

/-- Modelled from the spec: `get_pixel(x, y)` of the missing raster store,
the round-trip read used by the spec's testable properties; decodes the two
plane bits of an in-bounds pixel. -/
def get_pixel (s : RasterStore) (x y : Nat) : Option TriColor :=
  if x < s.width ∧ y < s.height then
    some (decodeColor
      (getBit (s.primary.getD (byteIndex s.width x y) 0) (bitIndex x))
      (getBit (s.accent.getD (byteIndex s.width x y) 0) (bitIndex x)))
  else none

/-- Modelled from the spec: `clear(color)` of the missing raster store —
sets every pixel to one color by filling every byte of both planes. -/
def clear (s : RasterStore) (c : TriColor) : RasterStore :=
  { s with
      primary := s.primary.map (fun _ => fillByte (primaryBit c))
      accent := s.accent.map (fun _ => fillByte (accentBit c)) }

/-- Modelled from the spec: the plane-length invariant every constructed
raster store maintains. -/
def wellFormed (s : RasterStore) : Prop :=
  s.primary.length = planeLen s.width s.height ∧
  s.accent.length = planeLen s.width s.height

instance (s : RasterStore) : Decidable s.wellFormed := by
  unfold wellFormed; infer_instance

end RasterStore

/-- Modelled from the spec: the error taxonomy of the missing driver. -/
inductive DriverError
  | BusFault
  | Timeout
  | InvalidGeometry
deriving DecidableEq

/-- Modelled from the spec: panel-model-specific opcodes of the missing
driver, kept abstract (their byte values are datasheet constants). -/
inductive Opcode
  | initSequence
  | refreshTrigger
  | deepSleep
deriving DecidableEq

/-- Modelled from the spec: observable bus and synchronizer activity of the
missing driver — a reset pulse, one command frame, one contiguous data
burst, or one bounded busy wait. -/
inductive BusEvent
  | resetPulse
  | command (op : Opcode)
  | dataBurst (bytes : List Nat)
  | busyWait (timeout : Nat)
deriving DecidableEq

/-- Modelled from the spec: `wait_idle(timeout)` of the missing busy
synchronizer — polls the busy line at a fixed interval until it reports
idle or the timeout elapses; `busy k` is the level sampled at the k-th
poll and the timeout is measured in polls. -/
def wait_idle (busy : Nat → Bool) : Nat → Except DriverError Unit
  | 0 => .error .Timeout
  | n + 1 =>
    if busy 0 then wait_idle (fun k => busy (k + 1)) n else .ok ()

/-- Modelled from the spec: the missing `Epd` driver handle in its Ready
typestate; it owns the configured panel geometry. -/
structure Epd where
  width : Nat
  height : Nat
deriving DecidableEq

/-- Modelled from the spec: the driver lifecycle states. -/
inductive DriverState
  | Uninitialized
  | Ready
  | Busy
  | Off
deriving DecidableEq

/-- Modelled from the spec: `initialize` of the missing driver state
machine — reset pulse, power-up command sequence, busy wait; transitions
to Ready exactly when the busy wait succeeds, otherwise the handle stays
Uninitialized and the error surfaces. -/
def Epd.init (busy : Nat → Bool) (timeout : Nat) :
    DriverState × List BusEvent × Except DriverError Unit :=
  match wait_idle busy timeout with
  | .ok () =>
    (.Ready, [.resetPulse, .command .initSequence, .busyWait timeout], .ok ())
  | .error e =>
    (.Uninitialized, [.resetPulse, .command .initSequence, .busyWait timeout], .error e)

/-- Modelled from the spec: `update(raster)` of the missing driver state
machine, called on a Ready handle — a mismatched geometry is rejected with
InvalidGeometry before any bus activity; otherwise the primary plane then
the accent plane are transmitted as two data bursts in that fixed order,
the refresh trigger is issued, and one `wait_idle` follows; on its timeout
the driver stays Busy, otherwise it returns to Ready. -/
def Epd.update (e : Epd) (r : RasterStore) (busy : Nat → Bool) (timeout : Nat) :
    DriverState × List BusEvent × Except DriverError Unit :=
  if r.width = e.width ∧ r.height = e.height then
    match wait_idle busy timeout with
    | .ok () =>
      (.Ready,
       [.dataBurst r.primary, .dataBurst r.accent,
        .command .refreshTrigger, .busyWait timeout], .ok ())
    | .error err =>
      (.Busy,
       [.dataBurst r.primary, .dataBurst r.accent,
        .command .refreshTrigger, .busyWait timeout], .error err)
  else (.Ready, [], .error .InvalidGeometry)

/-- Modelled from the spec: `power_off` of the missing driver state
machine, called on a Ready handle — issues the deep-sleep command and
irreversibly transitions to Off, consuming the handle. -/
def Epd.power_off (_e : Epd) :
    DriverState × List BusEvent × Except DriverError Unit :=
  (.Off, [.command .deepSleep], .ok ())

/-- Modelled from the spec: the operations a caller can attempt on the
missing driver. -/
inductive DriverOp
  | initOp
  | updateOp
  | waitIdleOp
  | powerOffOp
deriving DecidableEq

/-- Modelled from the spec: the lifecycle transition relation of the
missing driver state machine — Uninitialized → Ready (or staying
Uninitialized on a failed init), Ready ⇄ Busy per update cycle, and
Ready → Off terminal.  The typestate design makes every other call
sequence unrepresentable, so the relation has no other transitions. -/
inductive DriverStep : DriverState → DriverOp → DriverState → Prop
  | init_ok : DriverStep .Uninitialized .initOp .Ready
  | init_timeout : DriverStep .Uninitialized .initOp .Uninitialized
  | update_begin : DriverStep .Ready .updateOp .Busy
  | update_done : DriverStep .Busy .waitIdleOp .Ready
  | off : DriverStep .Ready .powerOffOp .Off

/-- Width in pixels of the embedded Ferris image,
from src/examples/nucleo-f401re.rs. -/
def FERRIS_WIDTH : Nat := 150

/-- Bytes per image row of the tri-color raw format at two bits per pixel:
ceil(width * 2 / 8). -/
def triColorRowBytes (w : Nat) : Nat := (w * 2 + 7) / 8

/-- Every aligned two-bit group of the byte is one of the three valid
tri-color codes 0b00, 0b01, 0b10 (the pattern 0b11 decodes to no color). -/
def validTriColorByte (b : Nat) : Bool :=
  decide (b / 64 % 4 ≠ 3) && decide (b / 16 % 4 ≠ 3) &&
  decide (b / 4 % 4 ≠ 3) && decide (b % 4 ≠ 3)

set_option maxHeartbeats 4000000 in
/-- Static image constant transcribed verbatim from
src/examples/nucleo-f401re.rs (generated there by convert_bmp.py); the
flat byte array of the source is grouped here into its 100 pixel rows of
38 bytes each, purely so that proofs traverse it with bounded recursion
depth; `FERRIS_IMG` below is the flat array itself. -/
def ferrisRows : List (List Nat) := [
  [0, 0, 0, 0, 0, 0, 0, 0, 0, 0, 0, 0, 0, 0, 0, 0, 0, 0, 0, 0, 0, 0, 0, 0, 0, 0, 0, 0, 0, 0, 0, 0, 0, 0, 0, 0, 0, 0],
  [0, 0, 0, 0, 0, 0, 0, 0, 0, 0, 0, 0, 0, 0, 0, 0, 0, 0, 0, 0, 0, 0, 0, 0, 0, 0, 0, 0, 0, 0, 0, 0, 0, 0, 0, 0, 0, 0],
  [0, 0, 0, 0, 0, 0, 0, 0, 0, 0, 0, 0, 0, 0, 0, 0, 0, 0, 0, 0, 0, 0, 0, 0, 0, 0, 0, 0, 0, 0, 0, 0, 0, 0, 0, 0, 0, 0],
  [0, 0, 0, 0, 0, 0, 0, 0, 0, 0, 0, 0, 0, 0, 0, 0, 0, 0, 0, 0, 0, 0, 0, 0, 0, 0, 0, 0, 0, 0, 0, 0, 0, 0, 0, 0, 0, 0],
  [0, 0, 0, 0, 0, 0, 0, 0, 0, 0, 0, 0, 0, 0, 0, 0, 0, 0, 0, 0, 0, 0, 0, 0, 0, 0, 0, 0, 0, 0, 0, 0, 0, 0, 0, 0, 0, 0],
  [0, 0, 0, 0, 0, 0, 0, 0, 0, 0, 0, 0, 0, 0, 0, 0, 0, 0, 0, 0, 0, 0, 0, 0, 0, 0, 0, 0, 0, 0, 0, 0, 0, 0, 0, 0, 0, 0],
  [0, 0, 0, 0, 0, 0, 0, 0, 0, 0, 0, 0, 0, 0, 0, 0, 0, 0, 0, 0, 0, 0, 0, 0, 0, 0, 0, 0, 0, 0, 0, 0, 0, 0, 0, 0, 0, 0],
  [0, 0, 0, 0, 0, 0, 0, 0, 0, 0, 0, 0, 0, 0, 0, 0, 0, 0, 0, 0, 0, 0, 0, 0, 0, 0, 0, 0, 0, 0, 0, 0, 0, 0, 0, 0, 0, 0],
  [0, 0, 0, 0, 0, 0, 0, 0, 0, 0, 0, 0, 0, 0, 0, 0, 0, 0, 0, 0, 0, 0, 0, 0, 0, 0, 0, 0, 0, 0, 0, 0, 0, 0, 0, 0, 0, 0],
  [0, 0, 0, 0, 0, 0, 0, 0, 0, 0, 0, 0, 0, 0, 0, 0, 0, 0, 0, 0, 0, 0, 0, 0, 0, 0, 0, 0, 0, 0, 0, 0, 0, 0, 0, 0, 0, 0],
  [0, 0, 0, 0, 0, 0, 0, 0, 0, 0, 0, 0, 0, 0, 0, 0, 0, 0, 0, 0, 0, 0, 0, 0, 0, 0, 0, 0, 0, 0, 0, 0, 0, 0, 0, 0, 0, 0],
  [0, 0, 0, 0, 0, 0, 0, 0, 0, 0, 0, 0, 0, 0, 0, 0, 0, 0, 0, 0, 0, 0, 0, 0, 0, 0, 0, 0, 0, 0, 0, 0, 0, 0, 0, 0, 0, 0],
  [0, 0, 0, 0, 0, 0, 0, 0, 0, 0, 0, 0, 0, 0, 0, 0, 0, 0, 0, 0, 0, 0, 0, 0, 0, 0, 0, 0, 0, 0, 0, 0, 0, 0, 0, 0, 0, 0],
  [0, 0, 0, 0, 0, 0, 0, 0, 0, 0, 0, 0, 0, 0, 0, 0, 0, 0, 0, 0, 0, 0, 0, 0, 0, 0, 0, 0, 0, 0, 0, 0, 0, 0, 0, 0, 0, 0],
  [0, 0, 0, 0, 0, 0, 0, 0, 0, 0, 0, 0, 0, 0, 0, 0, 0, 0, 0, 0, 0, 0, 0, 0, 0, 0, 0, 0, 0, 0, 0, 0, 0, 0, 0, 0, 0, 0],
  [0, 0, 0, 0, 0, 0, 0, 0, 0, 0, 0, 0, 0, 0, 0, 0, 0, 0, 10, 128, 0, 0, 0, 0, 0, 0, 0, 0, 0, 0, 0, 0, 0, 0, 0, 0, 0, 0],
  [0, 0, 0, 0, 0, 0, 0, 0, 0, 0, 0, 0, 0, 0, 0, 0, 160, 0, 10, 160, 0, 42, 0, 0, 0, 0, 0, 0, 0, 0, 0, 0, 0, 0, 0, 0, 0, 0],
  [0, 0, 0, 0, 0, 0, 0, 0, 0, 0, 0, 0, 0, 0, 0, 2, 168, 0, 42, 160, 0, 170, 0, 0, 0, 0, 0, 0, 0, 0, 0, 0, 0, 0, 0, 0, 0, 0],
  [0, 0, 0, 0, 0, 0, 0, 0, 0, 0, 0, 0, 0, 0, 0, 2, 170, 0, 42, 168, 2, 170, 0, 0, 0, 0, 0, 0, 0, 0, 0, 0, 0, 0, 0, 0, 0, 0],
  [0, 0, 0, 0, 0, 0, 0, 0, 0, 0, 0, 0, 0, 10, 0, 2, 170, 128, 170, 168, 10, 170, 128, 0, 160, 0, 0, 0, 0, 0, 0, 0, 0, 0, 0, 0, 0, 0],
  [0, 0, 0, 0, 0, 0, 0, 0, 0, 0, 0, 0, 0, 42, 128, 10, 170, 162, 170, 170, 42, 170, 128, 10, 160, 0, 0, 0, 0, 0, 0, 0, 0, 0, 0, 0, 0, 0],
  [0, 0, 0, 0, 0, 0, 0, 0, 0, 0, 0, 0, 0, 42, 160, 10, 170, 170, 170, 170, 170, 170, 160, 42, 160, 0, 0, 0, 0, 0, 0, 0, 0, 0, 0, 0, 0, 0],
  [0, 0, 0, 0, 0, 0, 0, 0, 0, 0, 0, 0, 0, 42, 170, 42, 170, 170, 170, 170, 170, 170, 160, 170, 168, 0, 0, 0, 0, 0, 0, 0, 0, 0, 0, 0, 0, 0],
  [0, 0, 0, 0, 0, 0, 0, 0, 0, 0, 0, 0, 0, 42, 170, 170, 170, 170, 170, 170, 170, 170, 170, 170, 168, 0, 0, 0, 0, 0, 0, 0, 0, 0, 0, 0, 0, 0],
  [0, 0, 0, 0, 0, 0, 0, 0, 0, 0, 0, 32, 0, 42, 170, 170, 170, 170, 170, 170, 170, 170, 170, 170, 168, 0, 8, 0, 0, 0, 0, 0, 0, 0, 0, 0, 0, 0],
  [0, 0, 0, 0, 0, 0, 0, 0, 0, 0, 0, 170, 0, 170, 170, 170, 170, 170, 170, 170, 170, 170, 170, 170, 168, 0, 170, 0, 0, 0, 0, 0, 0, 0, 0, 0, 0, 0],
  [0, 0, 0, 0, 0, 0, 0, 0, 0, 0, 0, 170, 160, 170, 170, 170, 170, 170, 170, 170, 170, 170, 170, 170, 170, 42, 170, 0, 0, 0, 0, 0, 0, 0, 0, 0, 0, 0],
  [0, 0, 0, 0, 0, 0, 0, 0, 0, 0, 0, 170, 170, 170, 170, 170, 170, 170, 170, 170, 170, 170, 170, 170, 170, 170, 170, 0, 0, 0, 0, 0, 0, 0, 0, 0, 0, 0],
  [0, 0, 0, 0, 0, 0, 0, 0, 0, 0, 0, 170, 170, 170, 170, 170, 170, 170, 170, 170, 170, 170, 170, 170, 170, 170, 170, 0, 0, 0, 0, 0, 0, 0, 0, 0, 0, 0],
  [0, 0, 0, 0, 0, 0, 0, 0, 0, 0, 0, 170, 170, 170, 170, 170, 170, 170, 170, 170, 170, 170, 170, 170, 170, 170, 170, 0, 0, 0, 0, 0, 0, 0, 160, 0, 0, 0],
  [0, 0, 0, 0, 0, 0, 0, 0, 0, 0, 0, 170, 170, 170, 170, 170, 170, 170, 170, 170, 170, 170, 170, 170, 170, 170, 170, 0, 0, 0, 0, 0, 0, 2, 160, 0, 0, 0],
  [0, 0, 0, 128, 0, 0, 0, 0, 0, 0, 0, 170, 170, 170, 170, 170, 170, 170, 170, 170, 170, 170, 170, 170, 170, 170, 170, 0, 0, 0, 0, 0, 0, 42, 160, 0, 32, 0],
  [0, 0, 0, 160, 0, 0, 0, 0, 2, 170, 130, 170, 170, 170, 170, 170, 170, 170, 170, 170, 170, 170, 170, 170, 170, 170, 170, 10, 170, 0, 0, 0, 0, 170, 160, 0, 40, 0],
  [0, 0, 0, 170, 0, 0, 0, 0, 2, 170, 170, 170, 170, 170, 170, 170, 170, 170, 170, 170, 170, 170, 170, 170, 170, 170, 170, 170, 170, 0, 0, 0, 2, 170, 128, 0, 40, 0],
  [0, 0, 0, 170, 128, 0, 0, 0, 0, 170, 170, 170, 170, 170, 170, 170, 170, 170, 170, 170, 170, 170, 170, 170, 170, 170, 170, 170, 170, 0, 0, 0, 10, 170, 128, 0, 40, 0],
  [0, 40, 0, 170, 160, 0, 0, 0, 0, 170, 170, 170, 170, 170, 170, 170, 170, 170, 170, 170, 170, 170, 170, 170, 170, 170, 170, 170, 170, 0, 0, 0, 42, 170, 128, 0, 168, 0],
  [0, 168, 0, 170, 168, 0, 0, 0, 0, 170, 170, 170, 170, 170, 170, 170, 170, 170, 170, 170, 170, 170, 170, 170, 170, 170, 170, 170, 168, 0, 0, 0, 170, 170, 128, 0, 170, 0],
  [2, 168, 0, 42, 170, 0, 0, 0, 0, 170, 170, 170, 170, 170, 170, 170, 170, 170, 170, 170, 170, 170, 170, 170, 170, 170, 170, 170, 168, 0, 0, 0, 170, 170, 128, 2, 170, 0],
  [2, 170, 0, 42, 170, 128, 0, 0, 0, 170, 170, 170, 170, 170, 170, 170, 170, 170, 170, 170, 170, 170, 170, 170, 170, 170, 170, 170, 168, 0, 0, 2, 170, 170, 128, 2, 170, 0],
  [10, 170, 0, 42, 170, 128, 0, 0, 0, 170, 170, 170, 170, 170, 170, 170, 170, 170, 170, 170, 170, 170, 170, 170, 170, 170, 170, 170, 168, 0, 0, 2, 170, 170, 128, 10, 170, 0],
  [10, 170, 128, 42, 170, 160, 0, 42, 170, 170, 170, 170, 170, 170, 170, 170, 170, 170, 170, 170, 170, 170, 170, 170, 170, 170, 170, 170, 170, 170, 160, 2, 170, 170, 128, 42, 168, 0],
  [10, 170, 128, 42, 170, 160, 0, 42, 170, 170, 170, 170, 170, 170, 170, 170, 170, 170, 170, 170, 170, 170, 170, 170, 170, 170, 170, 170, 170, 170, 168, 2, 170, 170, 128, 170, 168, 0],
  [10, 170, 160, 42, 170, 160, 0, 42, 170, 170, 170, 170, 170, 170, 170, 170, 170, 170, 170, 170, 170, 170, 170, 170, 170, 170, 170, 170, 170, 170, 168, 2, 170, 170, 138, 170, 168, 0],
  [10, 170, 168, 42, 170, 160, 0, 42, 170, 170, 170, 170, 170, 170, 170, 170, 170, 170, 170, 170, 170, 170, 170, 170, 170, 170, 170, 170, 170, 170, 160, 2, 170, 170, 170, 170, 160, 0],
  [10, 170, 168, 10, 170, 160, 0, 42, 170, 170, 170, 170, 170, 170, 170, 170, 170, 170, 170, 170, 170, 170, 170, 170, 170, 170, 170, 170, 170, 170, 160, 2, 170, 170, 170, 170, 160, 0],
  [10, 170, 170, 10, 170, 160, 0, 10, 170, 170, 170, 170, 170, 170, 170, 170, 170, 170, 170, 170, 170, 170, 170, 170, 170, 170, 170, 170, 170, 170, 128, 0, 170, 170, 170, 170, 128, 0],
  [2, 170, 170, 170, 170, 160, 0, 10, 170, 170, 170, 170, 170, 170, 170, 170, 170, 170, 170, 170, 170, 170, 170, 170, 170, 170, 170, 170, 170, 170, 128, 0, 170, 170, 170, 170, 0, 0],
  [2, 170, 170, 170, 170, 160, 0, 2, 170, 170, 170, 170, 170, 170, 170, 170, 170, 170, 170, 170, 170, 170, 170, 170, 170, 170, 170, 170, 170, 170, 128, 0, 42, 170, 170, 170, 0, 0],
  [0, 170, 170, 170, 170, 128, 0, 2, 170, 170, 170, 170, 170, 170, 170, 170, 170, 170, 170, 170, 170, 170, 170, 170, 170, 170, 170, 170, 170, 170, 128, 0, 42, 170, 170, 168, 0, 0],
  [0, 42, 170, 170, 170, 128, 0, 42, 170, 170, 170, 170, 170, 170, 170, 170, 170, 170, 170, 170, 170, 170, 170, 170, 170, 170, 170, 170, 170, 170, 168, 0, 10, 170, 170, 160, 0, 0],
  [0, 10, 170, 170, 170, 128, 170, 170, 170, 170, 170, 170, 170, 170, 170, 170, 170, 170, 170, 170, 170, 170, 170, 170, 170, 170, 170, 170, 170, 170, 170, 168, 2, 170, 170, 128, 0, 0],
  [0, 0, 170, 170, 170, 2, 170, 170, 170, 170, 170, 170, 170, 170, 170, 170, 170, 170, 170, 170, 170, 170, 170, 170, 170, 170, 170, 170, 170, 170, 170, 170, 2, 170, 168, 0, 0, 0],
  [0, 0, 42, 170, 168, 0, 170, 170, 170, 170, 170, 170, 170, 170, 170, 170, 170, 170, 170, 170, 170, 170, 170, 170, 170, 170, 170, 170, 170, 170, 170, 170, 2, 170, 160, 0, 0, 0],
  [0, 0, 2, 170, 168, 0, 170, 170, 170, 170, 170, 170, 170, 170, 170, 170, 1, 86, 170, 170, 170, 160, 21, 170, 170, 170, 170, 170, 170, 170, 170, 168, 10, 170, 0, 0, 0, 0],
  [0, 0, 0, 42, 168, 0, 42, 170, 170, 170, 170, 170, 170, 170, 170, 168, 0, 85, 170, 170, 170, 128, 5, 106, 170, 170, 170, 170, 170, 170, 170, 160, 42, 168, 0, 0, 0, 0],
  [0, 0, 0, 42, 170, 0, 10, 170, 170, 170, 170, 170, 170, 170, 170, 160, 0, 85, 106, 170, 170, 0, 5, 90, 170, 170, 170, 170, 170, 170, 170, 160, 170, 160, 0, 0, 0, 0],
  [0, 0, 0, 10, 170, 128, 10, 170, 170, 170, 170, 170, 170, 170, 170, 160, 0, 85, 106, 170, 170, 0, 5, 90, 170, 170, 170, 170, 170, 170, 170, 130, 170, 160, 0, 0, 0, 0],
  [0, 0, 0, 2, 170, 168, 2, 170, 170, 170, 170, 170, 170, 170, 170, 160, 0, 85, 90, 170, 169, 0, 5, 90, 170, 170, 170, 170, 170, 170, 170, 138, 170, 128, 0, 0, 0, 0],
  [0, 0, 0, 0, 170, 170, 138, 170, 170, 170, 170, 170, 170, 170, 170, 164, 0, 85, 90, 170, 169, 64, 5, 86, 170, 170, 170, 170, 170, 170, 170, 170, 170, 0, 0, 0, 0, 0],
  [0, 0, 0, 0, 42, 170, 170, 170, 170, 170, 170, 170, 170, 170, 170, 164, 1, 85, 90, 170, 169, 80, 21, 86, 170, 170, 170, 170, 170, 170, 170, 170, 168, 0, 0, 0, 0, 0],
  [0, 0, 0, 0, 10, 170, 170, 170, 170, 170, 170, 170, 170, 170, 170, 165, 69, 85, 90, 170, 169, 85, 85, 86, 170, 170, 170, 170, 170, 170, 170, 170, 160, 0, 0, 0, 0, 0],
  [0, 0, 0, 0, 0, 170, 170, 170, 170, 170, 170, 170, 170, 170, 170, 165, 85, 85, 90, 170, 169, 85, 85, 86, 170, 170, 170, 170, 170, 170, 170, 170, 128, 0, 0, 0, 0, 0],
  [0, 0, 0, 0, 0, 10, 170, 170, 170, 170, 170, 170, 170, 170, 170, 165, 85, 85, 90, 170, 169, 85, 85, 86, 170, 170, 170, 170, 170, 170, 170, 170, 160, 0, 0, 0, 0, 0],
  [0, 0, 0, 0, 0, 42, 170, 170, 170, 170, 170, 170, 170, 170, 170, 165, 85, 85, 106, 170, 170, 85, 85, 90, 170, 170, 170, 170, 170, 170, 170, 170, 170, 0, 0, 0, 0, 0],
  [0, 0, 0, 0, 0, 42, 170, 170, 170, 170, 170, 170, 170, 170, 170, 169, 85, 85, 106, 170, 170, 149, 85, 106, 170, 170, 170, 170, 170, 170, 170, 170, 170, 128, 0, 0, 0, 0],
  [0, 0, 0, 0, 0, 170, 170, 170, 170, 170, 170, 170, 170, 170, 170, 170, 85, 85, 170, 170, 170, 165, 85, 170, 170, 170, 170, 170, 170, 170, 170, 170, 170, 160, 0, 0, 0, 0],
  [0, 0, 0, 0, 2, 170, 170, 170, 170, 170, 170, 170, 170, 170, 170, 170, 165, 90, 170, 170, 170, 170, 170, 170, 170, 170, 170, 170, 170, 170, 170, 170, 170, 168, 0, 0, 0, 0],
  [0, 0, 0, 0, 10, 170, 170, 170, 170, 170, 170, 170, 170, 170, 170, 170, 170, 170, 170, 170, 170, 170, 170, 170, 170, 170, 170, 170, 170, 170, 170, 170, 170, 168, 0, 0, 0, 0],
  [0, 0, 0, 0, 42, 170, 168, 42, 170, 170, 170, 170, 170, 170, 170, 170, 170, 170, 170, 170, 170, 170, 170, 170, 170, 170, 170, 170, 170, 170, 10, 130, 170, 168, 0, 0, 0, 0],
  [0, 0, 0, 0, 42, 170, 160, 42, 170, 170, 170, 170, 170, 170, 170, 170, 170, 170, 170, 170, 170, 170, 170, 170, 170, 170, 170, 170, 170, 160, 42, 130, 170, 160, 0, 0, 0, 0],
  [0, 0, 0, 0, 10, 170, 168, 10, 160, 170, 170, 170, 170, 170, 170, 170, 170, 170, 170, 149, 86, 170, 170, 170, 170, 170, 170, 170, 170, 0, 42, 2, 170, 160, 0, 0, 0, 0],
  [0, 0, 0, 0, 2, 170, 168, 2, 160, 2, 170, 170, 170, 170, 170, 170, 170, 170, 169, 85, 86, 170, 170, 170, 170, 170, 170, 170, 160, 0, 40, 2, 170, 128, 0, 0, 0, 0],
  [0, 0, 0, 0, 2, 170, 168, 0, 168, 0, 42, 170, 170, 170, 170, 170, 170, 170, 170, 85, 90, 170, 170, 170, 170, 170, 170, 168, 0, 0, 168, 10, 170, 128, 0, 0, 0, 0],
  [0, 0, 0, 0, 0, 170, 170, 0, 168, 0, 0, 42, 170, 170, 170, 170, 170, 170, 170, 165, 170, 170, 170, 170, 170, 170, 170, 0, 0, 0, 160, 10, 170, 0, 0, 0, 0, 0],
  [0, 0, 0, 0, 0, 42, 170, 128, 42, 0, 0, 0, 42, 170, 170, 170, 170, 170, 170, 170, 170, 170, 170, 170, 170, 170, 128, 0, 0, 2, 128, 10, 168, 0, 0, 0, 0, 0],
  [0, 0, 0, 0, 0, 10, 170, 128, 10, 0, 0, 0, 0, 42, 170, 170, 170, 170, 170, 170, 170, 170, 170, 170, 170, 0, 0, 0, 0, 2, 128, 42, 168, 0, 0, 0, 0, 0],
  [0, 0, 0, 0, 0, 2, 170, 160, 2, 128, 0, 0, 0, 0, 0, 170, 170, 170, 170, 170, 170, 170, 170, 168, 0, 0, 0, 0, 0, 10, 0, 42, 160, 0, 0, 0, 0, 0],
  [0, 0, 0, 0, 0, 0, 170, 160, 0, 128, 0, 0, 0, 0, 0, 0, 0, 0, 170, 170, 168, 0, 0, 0, 0, 0, 0, 0, 0, 8, 0, 42, 128, 0, 0, 0, 0, 0],
  [0, 0, 0, 0, 0, 0, 42, 168, 0, 160, 0, 0, 0, 0, 0, 0, 0, 0, 0, 0, 0, 0, 0, 0, 0, 0, 0, 0, 0, 32, 0, 170, 0, 0, 0, 0, 0, 0],
  [0, 0, 0, 0, 0, 0, 10, 168, 0, 32, 0, 0, 0, 0, 0, 0, 0, 0, 0, 0, 0, 0, 0, 0, 0, 0, 0, 0, 0, 32, 0, 170, 0, 0, 0, 0, 0, 0],
  [0, 0, 0, 0, 0, 0, 2, 170, 0, 8, 0, 0, 0, 0, 0, 0, 0, 0, 0, 0, 0, 0, 0, 0, 0, 0, 0, 0, 0, 0, 2, 168, 0, 0, 0, 0, 0, 0],
  [0, 0, 0, 0, 0, 0, 0, 170, 128, 0, 0, 0, 0, 0, 0, 0, 0, 0, 0, 0, 0, 0, 0, 0, 0, 0, 0, 0, 0, 0, 2, 160, 0, 0, 0, 0, 0, 0],
  [0, 0, 0, 0, 0, 0, 0, 42, 160, 0, 0, 0, 0, 0, 0, 0, 0, 0, 0, 0, 0, 0, 0, 0, 0, 0, 0, 0, 0, 0, 10, 160, 0, 0, 0, 0, 0, 0],
  [0, 0, 0, 0, 0, 0, 0, 10, 160, 0, 0, 0, 0, 0, 0, 0, 0, 0, 0, 0, 0, 0, 0, 0, 0, 0, 0, 0, 0, 0, 10, 128, 0, 0, 0, 0, 0, 0],
  [0, 0, 0, 0, 0, 0, 0, 2, 168, 0, 0, 0, 0, 0, 0, 0, 0, 0, 0, 0, 0, 0, 0, 0, 0, 0, 0, 0, 0, 0, 42, 0, 0, 0, 0, 0, 0, 0],
  [0, 0, 0, 0, 0, 0, 0, 0, 170, 0, 0, 0, 0, 0, 0, 0, 0, 0, 0, 0, 0, 0, 0, 0, 0, 0, 0, 0, 0, 0, 40, 0, 0, 0, 0, 0, 0, 0],
  [0, 0, 0, 0, 0, 0, 0, 0, 10, 0, 0, 0, 0, 0, 0, 0, 0, 0, 0, 0, 0, 0, 0, 0, 0, 0, 0, 0, 0, 0, 40, 0, 0, 0, 0, 0, 0, 0],
  [0, 0, 0, 0, 0, 0, 0, 0, 10, 128, 0, 0, 0, 0, 0, 0, 0, 0, 0, 0, 0, 0, 0, 0, 0, 0, 0, 0, 0, 0, 160, 0, 0, 0, 0, 0, 0, 0],
  [0, 0, 0, 0, 0, 0, 0, 0, 2, 128, 0, 0, 0, 0, 0, 0, 0, 0, 0, 0, 0, 0, 0, 0, 0, 0, 0, 0, 0, 0, 160, 0, 0, 0, 0, 0, 0, 0],
  [0, 0, 0, 0, 0, 0, 0, 0, 0, 128, 0, 0, 0, 0, 0, 0, 0, 0, 0, 0, 0, 0, 0, 0, 0, 0, 0, 0, 0, 0, 128, 0, 0, 0, 0, 0, 0, 0],
  [0, 0, 0, 0, 0, 0, 0, 0, 0, 32, 0, 0, 0, 0, 0, 0, 0, 0, 0, 0, 0, 0, 0, 0, 0, 0, 0, 0, 0, 0, 0, 0, 0, 0, 0, 0, 0, 0],
  [0, 0, 0, 0, 0, 0, 0, 0, 0, 0, 0, 0, 0, 0, 0, 0, 0, 0, 0, 0, 0, 0, 0, 0, 0, 0, 0, 0, 0, 0, 0, 0, 0, 0, 0, 0, 0, 0],
  [0, 0, 0, 0, 0, 0, 0, 0, 0, 0, 0, 0, 0, 0, 0, 0, 0, 0, 0, 0, 0, 0, 0, 0, 0, 0, 0, 0, 0, 0, 0, 0, 0, 0, 0, 0, 0, 0],
  [0, 0, 0, 0, 0, 0, 0, 0, 0, 0, 0, 0, 0, 0, 0, 0, 0, 0, 0, 0, 0, 0, 0, 0, 0, 0, 0, 0, 0, 0, 0, 0, 0, 0, 0, 0, 0, 0],
  [0, 0, 0, 0, 0, 0, 0, 0, 0, 0, 0, 0, 0, 0, 0, 0, 0, 0, 0, 0, 0, 0, 0, 0, 0, 0, 0, 0, 0, 0, 0, 0, 0, 0, 0, 0, 0, 0],
  [0, 0, 0, 0, 0, 0, 0, 0, 0, 0, 0, 0, 0, 0, 0, 0, 0, 0, 0, 0, 0, 0, 0, 0, 0, 0, 0, 0, 0, 0, 0, 0, 0, 0, 0, 0, 0, 0],
  [0, 0, 0, 0, 0, 0, 0, 0, 0, 0, 0, 0, 0, 0, 0, 0, 0, 0, 0, 0, 0, 0, 0, 0, 0, 0, 0, 0, 0, 0, 0, 0, 0, 0, 0, 0, 0, 0],
  [0, 0, 0, 0, 0, 0, 0, 0, 0, 0, 0, 0, 0, 0, 0, 0, 0, 0, 0, 0, 0, 0, 0, 0, 0, 0, 0, 0, 0, 0, 0, 0, 0, 0, 0, 0, 0, 0],
  [0, 0, 0, 0, 0, 0, 0, 0, 0, 0, 0, 0, 0, 0, 0, 0, 0, 0, 0, 0, 0, 0, 0, 0, 0, 0, 0, 0, 0, 0, 0, 0, 0, 0, 0, 0, 0, 0],
  [0, 0, 0, 0, 0, 0, 0, 0, 0, 0, 0, 0, 0, 0, 0, 0, 0, 0, 0, 0, 0, 0, 0, 0, 0, 0, 0, 0, 0, 0, 0, 0, 0, 0, 0, 0, 0, 0]
]

/-- The flat FERRIS_IMG byte array of the source: the concatenation of
its rows, in order. -/
def FERRIS_IMG : List Nat := ferrisRows.flatten



/-- Helper: `wait_idle` only ever returns success or the Timeout error. -/
theorem wait_idle_ok_or_timeout (busy : Nat → Bool) (n : Nat) :
    wait_idle busy n = .ok () ∨ wait_idle busy n = .error .Timeout := by
  induction n generalizing busy with
  | zero => exact Or.inr rfl
  | succ n ih =>
    by_cases h : busy 0
    · simpa [wait_idle, h] using ih (fun k => busy (k + 1))
    · simp [wait_idle, h]

/-- Helper: `wait_idle` succeeds exactly when the busy line deasserts at
some poll before the timeout. -/
theorem wait_idle_ok_iff (busy : Nat → Bool) (n : Nat) :
    wait_idle busy n = .ok () ↔ ∃ k, k < n ∧ busy k = false := by
  induction n generalizing busy with
  | zero => simp [wait_idle]
  | succ n ih =>
    by_cases h : busy 0
    · rw [wait_idle, if_pos h, ih]
      constructor
      · rintro ⟨k, hk, hb⟩
        exact ⟨k + 1, by omega, hb⟩
      · rintro ⟨k, hk, hb⟩
        cases k with
        | zero => rw [h] at hb; cases hb
        | succ k => exact ⟨k, by omega, hb⟩
    · rw [wait_idle, if_neg h]
      simp only [true_iff]
      exact ⟨0, by omega, by simpa using h⟩

/-- Claim C4: for every timeout, wait_idle terminates with either success
or a Timeout failure, and when the busy line is stuck asserted forever it
returns Timeout rather than blocking. -/
theorem wait_idle_total (busy : Nat → Bool) (timeout : Nat) :
    (wait_idle busy timeout = .ok () ∨ wait_idle busy timeout = .error .Timeout) ∧
    ((∀ k, busy k = true) → wait_idle busy timeout = .error .Timeout) := by
  refine ⟨wait_idle_ok_or_timeout busy timeout, fun hstuck => ?_⟩
  rcases wait_idle_ok_or_timeout busy timeout with hok | ht
  · rcases (wait_idle_ok_iff busy timeout).mp hok with ⟨k, _, hb⟩
    rw [hstuck k] at hb
    cases hb
  · exact ht

/-- Witness for C4 at a concrete stuck busy line and timeout. -/
theorem wait_idle_total_witness :
    wait_idle (fun _ => true) 5 = .error .Timeout :=
  (wait_idle_total (fun _ => true) 5).2 (fun _ => rfl)

/-- Claim C3: init reaches Ready with success exactly when the busy line
deasserts within the timeout; when the busy line never deasserts, init
returns the Timeout error and the state remains Uninitialized. -/
theorem init_ready_iff (busy : Nat → Bool) (timeout : Nat) :
    ((Epd.init busy timeout).1 = .Ready ∧ (Epd.init busy timeout).2.2 = .ok ()
       ↔ ∃ k, k < timeout ∧ busy k = false) ∧
    ((∀ k, busy k = true) →
       Epd.init busy timeout =
         (.Uninitialized,
          [.resetPulse, .command .initSequence, .busyWait timeout],
          .error .Timeout)) := by
  constructor
  · rw [← wait_idle_ok_iff busy timeout]
    unfold Epd.init
    rcases wait_idle_ok_or_timeout busy timeout with hok | ht
    · rw [hok]; simp
    · rw [ht]; simp
  · intro hstuck
    have ht := (wait_idle_total busy timeout).2 hstuck
    unfold Epd.init
    rw [ht]

/-- Witness for C3 at a concrete never-deasserting busy line. -/
theorem init_ready_iff_witness :
    Epd.init (fun _ => true) 3 =
      (.Uninitialized, [.resetPulse, .command .initSequence, .busyWait 3],
       .error .Timeout) :=
  (init_ready_iff (fun _ => true) 3).2 (fun _ => rfl)

/-- Claim C2: power_off moves the Ready handle to the terminal Off state,
power_off is the only transition out of Ready by that operation and lands
in Off, and no operation at all steps out of Off. -/
theorem power_off_terminal (e : Epd) (op : DriverOp) (s : DriverState) :
    (e.power_off).1 = DriverState.Off ∧
    (DriverStep .Ready .powerOffOp s ↔ s = .Off) ∧
    (DriverStep .Off op s ↔ False) := by
  refine ⟨rfl, ⟨fun h => ?_, fun h => ?_⟩, ⟨fun h => ?_, False.elim⟩⟩
  · cases h; rfl
  · subst h; exact .off
  · cases h

/-- Claim C7: a raster whose geometry mismatches the driver's is rejected
with InvalidGeometry, with an empty bus trace and the state still Ready. -/
theorem update_invalid_geometry (e : Epd) (r : RasterStore)
    (busy : Nat → Bool) (timeout : Nat)
    (h : ¬(r.width = e.width ∧ r.height = e.height)) :
    e.update r busy timeout = (.Ready, [], .error .InvalidGeometry) := by
  unfold Epd.update
  rw [if_neg h]

/-- Witness for C7 at a concrete mismatched raster. -/
theorem update_invalid_geometry_witness :
    Epd.update ⟨10, 10⟩ (RasterStore.new 5 5) (fun _ => false) 1 =
      (.Ready, [], .error .InvalidGeometry) :=
  update_invalid_geometry ⟨10, 10⟩ (RasterStore.new 5 5) (fun _ => false) 1
    (by decide)

/-- Claim C6: an out-of-bounds set_pixel is a complete no-op: the store,
hence every byte of both planes, is unchanged. -/
theorem set_pixel_oob (s : RasterStore) (x y : Nat) (c : TriColor)
    (h : s.width ≤ x ∨ s.height ≤ y) : s.set_pixel x y c = s := by
  unfold RasterStore.set_pixel
  rw [if_neg (by omega)]

/-- Witness for C6 at a concrete out-of-bounds coordinate. -/
theorem set_pixel_oob_witness :
    (RasterStore.new 10 10).set_pixel 10 3 TriColor.Black = RasterStore.new 10 10 :=
  set_pixel_oob (RasterStore.new 10 10) 10 3 TriColor.Black (by decide)

/-- Claim C8: both planes have byte length ceil(width/8) * height at
construction, and neither set_pixel (at any coordinates) nor clear (with
any color) changes either plane's length. -/
theorem plane_lengths_invariant (w h : Nat) (s : RasterStore) (x y : Nat)
    (c d : TriColor) :
    (RasterStore.new w h).primary.length = rowBytes w * h ∧
    (RasterStore.new w h).accent.length = rowBytes w * h ∧
    (s.set_pixel x y c).primary.length = s.primary.length ∧
    (s.set_pixel x y c).accent.length = s.accent.length ∧
    (s.clear d).primary.length = s.primary.length ∧
    (s.clear d).accent.length = s.accent.length := by
  refine ⟨by simp [RasterStore.new, planeLen], by simp [RasterStore.new, planeLen],
    ?_, ?_, by simp [RasterStore.clear], by simp [RasterStore.clear]⟩ <;>
  · unfold RasterStore.set_pixel
    split <;> simp [planeSet]


/-- Helper: a pixel within its row occupies a byte within the row bytes. -/
theorem div8_lt_rowBytes {x w : Nat} (h : x < w) : x / 8 < rowBytes w := by
  have h1 : (x + 8) / 8 ≤ (w + 7) / 8 := Nat.div_le_div_right (by omega)
  rw [Nat.add_div_right x (by norm_num)] at h1
  unfold rowBytes
  omega

/-- Helper: an in-bounds pixel's byte index lies inside the plane. -/
theorem byteIndex_lt {w h x y : Nat} (hx : x < w) (hy : y < h) :
    byteIndex w x y < planeLen w h := by
  have h1 : x / 8 < rowBytes w := div8_lt_rowBytes hx
  have h3 : (y + 1) * rowBytes w ≤ h * rowBytes w :=
    Nat.mul_le_mul_right _ hy
  have h2 : y * rowBytes w + x / 8 < (y + 1) * rowBytes w := by
    rw [Nat.succ_mul]; omega
  unfold byteIndex planeLen
  calc y * rowBytes w + x / 8 < (y + 1) * rowBytes w := h2
    _ ≤ h * rowBytes w := h3
    _ = rowBytes w * h := Nat.mul_comm _ _

/-- Helper: every bit below 8 is set in the byte mask 255. -/
theorem testBit_255 {i : Nat} (h : i < 8) : (255 : Nat).testBit i = true := by
  interval_cases i <;> decide

/-- Helper: writing a bit of a byte and reading the same position gives
the written value back. -/
theorem getBit_setBit_self (b : Nat) {i : Nat} (h : i < 8) (v : Bool) :
    getBit (setBit b i v) i = v := by
  cases v with
  | true =>
    simp [getBit, setBit, Nat.testBit_lor, Nat.testBit_two_pow_self]
  | false =>
    simp [getBit, setBit, Nat.testBit_land, Nat.testBit_xor,
      Nat.testBit_two_pow_self, testBit_255 h]

/-- Helper: reading back the byte just written into a list. -/
theorem getD_set_self {l : List Nat} {idx : Nat} (a : Nat)
    (h : idx < l.length) : (l.set idx a).getD idx 0 = a := by
  rw [List.getD_eq_getElem _ _ (by simpa using h)]
  exact List.getElem_set_self _

/-- Helper: decoding the two encoded plane bits of a color gives the color
back, for each of the three colors. -/
theorem decode_encode (c : TriColor) :
    decodeColor (primaryBit c) (accentBit c) = c := by
  cases c <;> rfl

/-- Claim C5: for every well-formed store, every in-bounds coordinate and
every color, set_pixel followed by get_pixel at the same coordinate
returns that color, whatever the prior store contents. -/
theorem set_get_roundtrip (s : RasterStore) (x y : Nat) (c : TriColor)
    (hwf : s.wellFormed) (hx : x < s.width) (hy : y < s.height) :
    (s.set_pixel x y c).get_pixel x y = some c := by
  obtain ⟨hp, ha⟩ := hwf
  have hin : x < s.width ∧ y < s.height := ⟨hx, hy⟩
  have hidxp : byteIndex s.width x y < s.primary.length := by
    rw [hp]; exact byteIndex_lt hx hy
  have hidxa : byteIndex s.width x y < s.accent.length := by
    rw [ha]; exact byteIndex_lt hx hy
  have hbit : bitIndex x < 8 := by unfold bitIndex; omega
  unfold RasterStore.set_pixel RasterStore.get_pixel planeSet
  rw [if_pos hin]
  dsimp only
  rw [if_pos hin]
  rw [getD_set_self _ hidxp, getD_set_self _ hidxa,
    getBit_setBit_self _ hbit, getBit_setBit_self _ hbit, decode_encode]

/-- Witness for C5 at a concrete store, coordinate and color. -/
theorem set_get_roundtrip_witness :
    ((RasterStore.new 10 10).set_pixel 3 4 TriColor.Red).get_pixel 3 4 =
      some TriColor.Red :=
  set_get_roundtrip (RasterStore.new 10 10) 3 4 TriColor.Red
    (by decide) (by decide) (by decide)

/-- Claim C1: an update on a Ready driver with a matching well-formed
raster produces exactly the trace primary-plane burst, accent-plane burst,
refresh-trigger command, one busy wait — in that order — and each burst
has length ceil(width/8) * height. -/
theorem update_trace (e : Epd) (r : RasterStore) (busy : Nat → Bool)
    (timeout : Nat) (hw : r.width = e.width) (hh : r.height = e.height)
    (hwf : r.wellFormed) :
    (e.update r busy timeout).2.1 =
      [.dataBurst r.primary, .dataBurst r.accent,
       .command .refreshTrigger, .busyWait timeout] ∧
    r.primary.length = rowBytes e.width * e.height ∧
    r.accent.length = rowBytes e.width * e.height := by
  obtain ⟨hp, ha⟩ := hwf
  refine ⟨?_, by rw [hp, hw, hh]; rfl, by rw [ha, hw, hh]; rfl⟩
  unfold Epd.update
  rw [if_pos ⟨hw, hh⟩]
  rcases wait_idle_ok_or_timeout busy timeout with hok | ht
  · rw [hok]
  · rw [ht]

/-- Witness for C1 at a concrete driver, raster and busy line. -/
theorem update_trace_witness :
    (Epd.update ⟨10, 10⟩ (RasterStore.new 10 10) (fun _ => false) 1).2.1 =
      [.dataBurst (RasterStore.new 10 10).primary,
       .dataBurst (RasterStore.new 10 10).accent,
       .command .refreshTrigger, .busyWait 1] ∧
    (RasterStore.new 10 10).primary.length = rowBytes 10 * 10 ∧
    (RasterStore.new 10 10).accent.length = rowBytes 10 * 10 :=
  update_trace ⟨10, 10⟩ (RasterStore.new 10 10) (fun _ => false) 1
    rfl rfl (by decide)



/-- Helper: a predicate holds of every byte of a flattened list of rows
exactly when it holds row by row. -/
theorem all_flatten (L : List (List Nat)) (p : Nat → Bool) :
    L.flatten.all p = L.all (fun l => l.all p) := by
  induction L with
  | nil => rfl
  | cons hd tl ih => simp [List.flatten, List.all_append, ih]

set_option maxRecDepth 10000 in
set_option maxHeartbeats 4000000 in
/-- Claim C9: the FERRIS_IMG byte array encodes a whole number of pixel
rows: its length is an exact multiple of the 38-byte row size implied by
FERRIS_WIDTH at two bits per pixel. -/
theorem ferris_whole_rows :
    triColorRowBytes FERRIS_WIDTH = 38 ∧
    FERRIS_IMG.length % triColorRowBytes FERRIS_WIDTH = 0 := by
  constructor
  · rfl
  · unfold FERRIS_IMG
    rw [List.length_flatten]
    rfl

set_option maxRecDepth 10000 in
set_option maxHeartbeats 4000000 in
/-- Claim C10: every aligned two-bit group of every FERRIS_IMG byte is one
of the three valid tri-color codes; the invalid pattern 0b11 occurs
nowhere in the array. -/
theorem ferris_valid_bytes :
    FERRIS_IMG.all validTriColorByte = true := by
  unfold FERRIS_IMG
  rw [all_flatten]
  rfl

end EpdSpectra
